import Mathlib

/-!
Verification of the observations module of a Go client library for a
biodiversity-observation REST service (`observations.go`, package
`gonaturalist`).

The development is a shallow embedding: Go structs become Lean structures,
Go functions become Lean functions, JSON values are an inductive type with
numbers as exact rationals, `time.Time` values are a UTC calendar-time
record, and fallible operations return `Except`.  Go runtime panics are
represented explicitly by a `GoResult.panicked` outcome.
-/

namespace Gonaturalist

/-- JSON values.  Numbers are carried as exact rationals (the claims under
study only involve decimal values that are exactly representable). -/
inductive Json where
  | null : Json
  | bool (b : Bool) : Json
  | num (q : ℚ) : Json
  | str (s : String) : Json
  | arr (elements : List Json) : Json
  | obj (fields : List (String × Json)) : Json

/-- Model of Go's `time.Time` restricted to UTC calendar time (the library
always formats and parses UTC timestamps; locations and sub-second precision
are not exercised by this module). -/
structure GoTime where
  year : Nat
  month : Nat
  day : Nat
  hour : Nat
  minute : Nat
  second : Nat
deriving DecidableEq, Repr

/-- Go's zero `time.Time` is January 1, year 1, 00:00:00 UTC. -/
def goTimeZero : GoTime := ⟨1, 1, 1, 0, 0, 0⟩

/-- Left-pad the decimal representation of a natural number with zeros. -/
def padNat (width n : Nat) : String :=
  let s := toString n
  String.mk (List.replicate (width - s.length) '0') ++ s

/-- Model of Go's `t.Format(time.RFC3339)` for a UTC time
(`"2006-01-02T15:04:05Z07:00"` layout; a UTC time prints a `Z` suffix). -/
def formatRFC3339 (t : GoTime) : String :=
  padNat 4 t.year ++ "-" ++ padNat 2 t.month ++ "-" ++ padNat 2 t.day ++ "T" ++
    padNat 2 t.hour ++ ":" ++ padNat 2 t.minute ++ ":" ++ padNat 2 t.second ++ "Z"

/-- Model of Go's `t.Format("2006-01-02")`: plain calendar date. -/
def formatDate (t : GoTime) : String :=
  padNat 4 t.year ++ "-" ++ padNat 2 t.month ++ "-" ++ padNat 2 t.day

/-- Read exactly `n` decimal digits from the front of a character list. -/
def readFixedNat : Nat → List Char → Option (Nat × List Char)
  | 0, cs => some (0, cs)
  | n + 1, c :: cs =>
      if c.isDigit then
        match readFixedNat n cs with
        | some (v, rest) => some ((c.toNat - 48) * 10 ^ n + v, rest)
        | none => none
      else none
  | _ + 1, [] => none

/-- Expect a specific character at the front of a character list. -/
def expectChar (c : Char) : List Char → Option (List Char)
  | d :: cs => if d = c then some cs else none
  | [] => none

/-- Model of Go's RFC 3339 `time.Time` parsing (as used by
`time.Time.UnmarshalJSON`), restricted to the `Z`-suffixed UTC form with
whole seconds, with the component range checks Go performs. -/
def parseRFC3339 (s : String) : Option GoTime := do
  let cs := s.data
  let (y, cs) ← readFixedNat 4 cs
  let cs ← expectChar '-' cs
  let (mo, cs) ← readFixedNat 2 cs
  let cs ← expectChar '-' cs
  let (d, cs) ← readFixedNat 2 cs
  let cs ← expectChar 'T' cs
  let (h, cs) ← readFixedNat 2 cs
  let cs ← expectChar ':' cs
  let (mi, cs) ← readFixedNat 2 cs
  let cs ← expectChar ':' cs
  let (sec, cs) ← readFixedNat 2 cs
  let cs ← expectChar 'Z' cs
  if cs = [] ∧ 1 ≤ mo ∧ mo ≤ 12 ∧ 1 ≤ d ∧ d ≤ 31 ∧ h ≤ 23 ∧ mi ≤ 59 ∧ sec ≤ 59 then
    some ⟨y, mo, d, h, mi, sec⟩
  else none

/-- Decimal value of a list of digit characters. -/
def digitsToNat (ds : List Char) : Nat :=
  ds.foldl (fun a c => a * 10 + (c.toNat - 48)) 0

/-- Parse the text of a JSON number (the grammar `encoding/json` accepts:
optional minus, integer part without superfluous leading zero, optional
fraction, optional exponent) into an exact rational.  Returns `none` when the
text is not a JSON number.  This is what Go's decoder applies to the contents
of a `,string`-tagged field. -/
def parseJsonNumber (s : String) : Option ℚ :=
  let cs := s.data
  let (neg, cs1) :=
    match cs with
    | '-' :: rest => (true, rest)
    | _ => (false, cs)
  let (intDigits, cs2) := cs1.span Char.isDigit
  if intDigits = [] then none
  else if intDigits.head? = some '0' ∧ intDigits.length > 1 then none
  else
    let fracStep : Option (Nat × Nat × List Char) :=
      match cs2 with
      | '.' :: rest =>
          let (fd, cs3) := rest.span Char.isDigit
          if fd = [] then none else some (digitsToNat fd, fd.length, cs3)
      | _ => some (0, 0, cs2)
    match fracStep with
    | none => none
    | some (fracVal, fracLen, cs3) =>
      let expStep : Option (Bool × Nat × List Char) :=
        match cs3 with
        | c :: rest =>
            if c = 'e' ∨ c = 'E' then
              let (expNeg, rest2) :=
                match rest with
                | '+' :: r => (false, r)
                | '-' :: r => (true, r)
                | _ => (false, rest)
              let (ed, cs4) := rest2.span Char.isDigit
              if ed = [] then none else some (expNeg, digitsToNat ed, cs4)
            else some (false, 0, cs3)
        | [] => some (false, 0, [])
      match expStep with
      | none => none
      | some (expNeg, expVal, cs4) =>
          if cs4 = [] then
            let mag : ℚ := (digitsToNat intDigits : ℚ) + (fracVal : ℚ) / (10 ^ fracLen : ℚ)
            let scaled : ℚ := if expNeg then mag / 10 ^ expVal else mag * 10 ^ expVal
            some (if neg then -scaled else scaled)
          else none

/-- The error kinds the client surfaces (spec §7).  Transport errors and the
free-text-date `ParseError` are not exercised by the claims under study. -/
inductive ClientError where
  | unexpectedStatus (status : Nat) : ClientError
  | decodeError (msg : String) : ClientError
deriving DecidableEq, Repr

/-- A provider response as seen by an operation: the HTTP status code and the
already-tokenized JSON body. -/
structure HttpResponse where
  status : Nat
  body : Json

/-- The outcome of a Go function returning `(T, error)`: a value, an error,
or a runtime panic (which in Go aborts instead of returning). -/
inductive GoResult (α : Type) where
  | ok (value : α) : GoResult α
  | err (e : ClientError) : GoResult α
  | panicked (msg : String) : GoResult α

/-- The `SimpleObservation` struct (observations.go lines 23–44).  `int64`
and `int32` fields become `Int`, `float64` fields become `ℚ`, and
`time.Time` fields become `GoTime`.  `Latitude` and `Longitude` carry the
JSON tag option `,string` in the source: on the wire they are
numeric-valued JSON strings. -/
structure SimpleObservation where
  id : Int
  userLogin : String
  placeGuess : String
  speciesGuess : String
  latitude : ℚ
  longitude : ℚ
  createdAt : GoTime
  observedOn : String
  observedOnString : String
  updatedAt : GoTime
  taxonId : Int
  userId : Int
  siteId : Int
  timeZone : String
  description : String
  uri : String
  uuid : String
  timeObservedAtUtc : GoTime
  positionalAccuracy : Int
  publicPositionalAccuracy : Int
deriving DecidableEq, Repr

/-- The Go zero value of `SimpleObservation` — the starting point of
`encoding/json` decoding into a fresh struct. -/
def simpleObservationZero : SimpleObservation :=
  ⟨0, "", "", "", 0, 0, goTimeZero, "", "", goTimeZero, 0, 0, 0, "", "", "", "",
    goTimeZero, 0, 0⟩

/-- `encoding/json` decoding of a JSON value into a Go integer field: the
value must be a JSON number with no fractional part. -/
def decodeIntField (v : Json) : Except ClientError Int :=
  match v with
  | Json.num q =>
      if q.den = 1 then Except.ok q.num
      else Except.error (ClientError.decodeError "cannot unmarshal number into integer field")
  | _ => Except.error (ClientError.decodeError "cannot unmarshal value into integer field")

/-- `encoding/json` decoding of a JSON value into a Go string field. -/
def decodeStringField (v : Json) : Except ClientError String :=
  match v with
  | Json.str s => Except.ok s
  | _ => Except.error (ClientError.decodeError "cannot unmarshal value into string field")

/-- `encoding/json` decoding into a `float64` field tagged `,string`: the
wire value must be a JSON string whose contents are a JSON number, which is
parsed to the numeric value; anything else is a decode error. -/
def decodeStringFloatField (v : Json) : Except ClientError ℚ :=
  match v with
  | Json.str s =>
      match parseJsonNumber s with
      | some q => Except.ok q
      | none => Except.error (ClientError.decodeError "invalid number in string-encoded float field")
  | _ => Except.error (ClientError.decodeError "invalid use of string option on non-string value")

/-- `encoding/json` decoding into a `time.Time` field: the wire value must
be an RFC 3339 string. -/
def decodeTimeField (v : Json) : Except ClientError GoTime :=
  match v with
  | Json.str s =>
      match parseRFC3339 s with
      | some t => Except.ok t
      | none => Except.error (ClientError.decodeError "cannot parse time value")
  | _ => Except.error (ClientError.decodeError "cannot unmarshal value into time field")

/-- Apply one JSON object member to a partially-decoded `SimpleObservation`,
dispatching on the member key exactly as the struct's JSON tags do.  A JSON
`null` leaves the field unchanged (Go's decoder treats `null` as a no-op for
these field kinds); unknown keys are ignored. -/
def applySimpleObservationField (o : SimpleObservation) (k : String) (v : Json) :
    Except ClientError SimpleObservation :=
  match v with
  | Json.null => Except.ok o
  | _ =>
      match k with
      | "id" => (decodeIntField v).map (fun n => { o with id := n })
      | "user_login" => (decodeStringField v).map (fun s => { o with userLogin := s })
      | "place_guess" => (decodeStringField v).map (fun s => { o with placeGuess := s })
      | "species_guess" => (decodeStringField v).map (fun s => { o with speciesGuess := s })
      | "latitude" => (decodeStringFloatField v).map (fun q => { o with latitude := q })
      | "longitude" => (decodeStringFloatField v).map (fun q => { o with longitude := q })
      | "created_at_utc" => (decodeTimeField v).map (fun t => { o with createdAt := t })
      | "observed_on" => (decodeStringField v).map (fun s => { o with observedOn := s })
      | "observed_on_string" =>
          (decodeStringField v).map (fun s => { o with observedOnString := s })
      | "updated_at_utc" => (decodeTimeField v).map (fun t => { o with updatedAt := t })
      | "taxon_id" => (decodeIntField v).map (fun n => { o with taxonId := n })
      | "user_id" => (decodeIntField v).map (fun n => { o with userId := n })
      | "site_id" => (decodeIntField v).map (fun n => { o with siteId := n })
      | "time_zone" => (decodeStringField v).map (fun s => { o with timeZone := s })
      | "description" => (decodeStringField v).map (fun s => { o with description := s })
      | "uri" => (decodeStringField v).map (fun s => { o with uri := s })
      | "uuid" => (decodeStringField v).map (fun s => { o with uuid := s })
      | "time_observed_at_utc" =>
          (decodeTimeField v).map (fun t => { o with timeObservedAtUtc := t })
      | "positional_accuracy" =>
          (decodeIntField v).map (fun n => { o with positionalAccuracy := n })
      | "public_positional_accuracy" =>
          (decodeIntField v).map (fun n => { o with publicPositionalAccuracy := n })
      | _ => Except.ok o

/-- `encoding/json` decoding of a JSON value into a `SimpleObservation`:
the value must be an object; members are applied in order of appearance to
the zero struct; absent members leave their fields at the zero value; a
malformed member fails the whole decode. -/
def decodeSimpleObservation (j : Json) : Except ClientError SimpleObservation :=
  match j with
  | Json.obj fields =>
      fields.foldlM (fun o kv => applySimpleObservationField o kv.1 kv.2) simpleObservationZero
  | _ => Except.error (ClientError.decodeError "cannot unmarshal value into SimpleObservation")

/-- Decoding into a `*SimpleObservation` slice element: JSON `null` becomes
a nil pointer. -/
def decodePtrSimpleObservation (j : Json) : Except ClientError (Option SimpleObservation) :=
  match j with
  | Json.null => Except.ok none
  | _ => (decodeSimpleObservation j).map some

/-- `encoding/json` decoding of a response body into `[]*SimpleObservation`:
a JSON array decodes element-wise; JSON `null` yields a nil (empty) slice;
anything else is a decode error. -/
def decodeSimpleObservationList (j : Json) : Except ClientError (List (Option SimpleObservation)) :=
  match j with
  | Json.arr xs => xs.mapM decodePtrSimpleObservation
  | Json.null => Except.ok []
  | _ => Except.error (ClientError.decodeError "cannot unmarshal value into observation slice")

/-- The `AddObservationOpt` struct (observations.go lines 177–186).  Every
field is a plain (non-pointer) value.  The `observed_on_string` field's tag
reads `,omit_empty`, which is not the `omitempty` option `encoding/json`
recognizes, so it has no effect on serialization. -/
structure AddObservationOpt where
  speciesGuess : String
  observedOnString : GoTime
  description : String
  latitude : ℚ
  longitude : ℚ
  positionalAccuracy : Int
  tags : String
  geoPrivacy : String
deriving DecidableEq, Repr

/-- `json.Marshal` of an `AddObservationOpt`: fields are emitted in struct
order under their tag names.  No field carries a recognized `omitempty`
option (the `omit_empty` spelling on `observed_on_string` is an unknown
option and is ignored), so all eight keys are always present.  `time.Time`
marshals as an RFC 3339 string. -/
def marshalAddObservationOpt (o : AddObservationOpt) : List (String × Json) :=
  [("species_guess", Json.str o.speciesGuess),
   ("observed_on_string", Json.str (formatRFC3339 o.observedOnString)),
   ("description", Json.str o.description),
   ("latitude", Json.num o.latitude),
   ("longitude", Json.num o.longitude),
   ("positional_accuracy", Json.num (o.positionalAccuracy : ℚ)),
   ("tag_list", Json.str o.tags),
   ("geoprivacy", Json.str o.geoPrivacy)]

/-- The `UpdateObservationOpt` struct (observations.go lines 233–243).
`Id` is tagged `json:"-"` (never serialized); `ObservedOnString` is a
`*time.Time` (genuine unset = nil); every other field is a plain value
tagged `,omitempty`. -/
structure UpdateObservationOpt where
  id : Int
  speciesGuess : String
  observedOnString : Option GoTime
  description : String
  latitude : ℚ
  longitude : ℚ
  positionalAccuracy : Int
  tags : String
  geoPrivacy : String
deriving DecidableEq, Repr

/-- `json.Marshal` of an `UpdateObservationOpt`.  `Id` is excluded by its
`json:"-"` tag.  `omitempty` omits a field whose value is Go-empty: the
empty string, numeric zero, or a nil pointer.  Note this conflates "unset"
with "explicitly zero" for the non-pointer fields. -/
def marshalUpdateObservationOpt (o : UpdateObservationOpt) : List (String × Json) :=
  (if o.speciesGuess = "" then [] else [("species_guess", Json.str o.speciesGuess)]) ++
  (match o.observedOnString with
   | none => []
   | some t => [("observed_on_string", Json.str (formatRFC3339 t))]) ++
  (if o.description = "" then [] else [("description", Json.str o.description)]) ++
  (if o.latitude = 0 then [] else [("latitude", Json.num o.latitude)]) ++
  (if o.longitude = 0 then [] else [("longitude", Json.num o.longitude)]) ++
  (if o.positionalAccuracy = 0 then []
   else [("positional_accuracy", Json.num (o.positionalAccuracy : ℚ))]) ++
  (if o.tags = "" then [] else [("tag_list", Json.str o.tags)]) ++
  (if o.geoPrivacy = "" then [] else [("geoprivacy", Json.str o.geoPrivacy)])

/-- The keys of a serialized JSON object, in order. -/
def jsonKeys (l : List (String × Json)) : List String := l.map Prod.fst

/-- Modelled from the spec: `Client.buildUrl` (defined outside src/), the
URL/base-path builder that "resolves a relative endpoint template against
the configured provider base address". -/
def buildUrl (base path : String) : String := base ++ path

/-- The id-scoped path used by `UpdateObservation`, `DeleteObservation` and
the single-observation getters: `/observations/%d.json`. -/
def observationIdPath (id : Int) : String := "/observations/" ++ toString id ++ ".json"

/-- Modelled from the spec: the status check of the generic HTTP request
executor `Client.execute` (client.go, outside src/) — "response status does
not match the expected success code for the operation" fails with an
`UnexpectedStatusError` carrying the actual status (spec §7, §4.4). -/
def executeStatusCheck (expected : Nat) (resp : HttpResponse) : Except ClientError Unit :=
  if resp.status = expected then Except.ok ()
  else Except.error (ClientError.unexpectedStatus resp.status)

/-- Modelled from the spec: `Client.execute` with a `[]*SimpleObservation`
result target — check the status against the expected one, then decode the
JSON body into the target. -/
def executeObservationList (expected : Nat) (resp : HttpResponse) :
    Except ClientError (List (Option SimpleObservation)) :=
  match executeStatusCheck expected resp with
  | Except.error e => Except.error e
  | Except.ok _ => decodeSimpleObservationList resp.body

/-- Response handling of `AddObservation` (observations.go lines 188–207):
execute with expected status 201 (`http.StatusCreated`) decoding into
`[]*SimpleObservation`, then return `result[0]`.  The index expression is
unguarded in the source: on an empty decoded slice it is a Go runtime panic
(index out of range), not a returned error. -/
def addObservation (opt : AddObservationOpt) (resp : HttpResponse) :
    GoResult (Option SimpleObservation) :=
  match executeObservationList 201 resp with
  | Except.error e => GoResult.err e
  | Except.ok result =>
      match result with
      | r :: _ => GoResult.ok r
      | [] => GoResult.panicked "runtime error: index out of range [0] with length 0"

/-- Response handling of `DeleteObservation` (observations.go lines
266–281): execute with expected status 201 and a nil result target, so a
matching status performs no decode of the body and returns no value. -/
def deleteObservation (id : Int) (resp : HttpResponse) : Except ClientError Unit :=
  executeStatusCheck 201 resp

/-- A geographic point (observations.go lines 13–16). -/
structure Location where
  longitude : ℚ
  latitude : ℚ
deriving DecidableEq, Repr

/-- A bounding box (observations.go lines 18–21). -/
structure Rectangle where
  southwest : Location
  northeast : Location
deriving DecidableEq, Repr

/-- The `GetObservationsOpt` struct (observations.go lines 107–116): every
field is a pointer, so unset is `none`. -/
structure GetObservationsOpt where
  perPage : Option Int
  page : Option Int
  rectangle : Option Rectangle
  onDate : Option GoTime
  updatedSince : Option GoTime
  orderBy : Option String
  orderAscending : Option Bool
  hasGeo : Option Bool

/-- `url.Values.Set`: replace any existing values for the key with the
single given value.  `url.Values` is modelled as an association list; since
`Encode` sorts by key, internal order is immaterial. -/
def valuesSet (v : List (String × String)) (k val : String) : List (String × String) :=
  v.filter (fun p => p.1 ≠ k) ++ [(k, val)]

/-- `v.Set(k, f(x))` guarded by `x != nil`, the shape of every optional
parameter branch in `GetObservations`. -/
def setIfSome {α : Type} (v : List (String × String)) (field : Option α) (k : String)
    (f : α → String) : List (String × String) :=
  match field with
  | some a => valuesSet v k (f a)
  | none => v

/-- The query parameters `GetObservations` builds (observations.go lines
126–161), with the `v.Set` calls in source order.  `fmtF` abstracts Go's
`fmt.Sprintf("%v", ·)` on the rectangle's `float64` coordinates (shortest
round-trip decimal formatting of IEEE-754 doubles, not modelled here).
`strconv.Itoa` is decimal `toString`; `updated_since` uses RFC 3339 and
`on` uses the `2006-01-02` date layout. -/
def getObservationsQueryValues (fmtF : ℚ → String) (opt : GetObservationsOpt) :
    List (String × String) :=
  let v : List (String × String) := []
  let v := setIfSome v opt.page "page" (fun p => toString p)
  let v := setIfSome v opt.perPage "per_page" (fun p => toString p)
  let v :=
    match opt.rectangle with
    | some r =>
        valuesSet
          (valuesSet
            (valuesSet
              (valuesSet v "swlng" (fmtF r.southwest.longitude))
              "swlat" (fmtF r.southwest.latitude))
            "nelng" (fmtF r.northeast.longitude))
          "nelat" (fmtF r.northeast.latitude)
    | none => v
  let v :=
    match opt.orderBy with
    | some f =>
        let v2 := valuesSet v "order_by" f
        match opt.orderAscending with
        | none => valuesSet v2 "order" "desc"
        | some _ => v2
    | none => v
  let v :=
    match opt.orderAscending with
    | some b => valuesSet v "order" (if b then "asc" else "desc")
    | none => v
  let v := setIfSome v opt.updatedSince "updated_since" formatRFC3339
  let v := setIfSome v opt.hasGeo "has[]" (fun _ => "geo")
  let v := setIfSome v opt.onDate "on" formatDate
  v

/-- Uppercase hexadecimal digit. -/
def hexDigit (n : Nat) : Char :=
  if n < 10 then Char.ofNat (48 + n) else Char.ofNat (55 + n)

/-- Go's `url.QueryEscape` on one character: ASCII alphanumerics and
`-_.~` are kept, space becomes `+`, anything else is `%XX` with uppercase
hex.  (Escaping is per UTF-8 byte in Go; the strings this client builds are
ASCII, where byte and character coincide.) -/
def queryEscapeChar (c : Char) : String :=
  if c.isAlphanum ∨ c = '-' ∨ c = '_' ∨ c = '.' ∨ c = '~' then String.singleton c
  else if c = ' ' then "+"
  else String.mk ['%', hexDigit (c.toNat / 16), hexDigit (c.toNat % 16)]

/-- Go's `url.QueryEscape`. -/
def queryEscape (s : String) : String :=
  s.data.foldl (fun acc c => acc ++ queryEscapeChar c) ""

/-- Lexicographic order on character lists, Go's byte-wise string order
restricted to ASCII (all keys this client produces are ASCII). -/
def charListLt : List Char → List Char → Bool
  | _, [] => false
  | [], _ :: _ => true
  | c :: cs, d :: ds =>
      if c.toNat < d.toNat then true
      else if d.toNat < c.toNat then false
      else charListLt cs ds

/-- `sort.Strings` comparison on keys. -/
def keyLt (a b : String) : Bool := charListLt a.data b.data

/-- Insert a pair into a key-sorted list (stable insertion). -/
def insertByKey (p : String × String) : List (String × String) → List (String × String)
  | [] => [p]
  | q :: rest => if keyLt q.1 p.1 then q :: insertByKey p rest else p :: q :: rest

/-- Sort an association list by key. -/
def sortByKey : List (String × String) → List (String × String)
  | [] => []
  | p :: rest => insertByKey p (sortByKey rest)

/-- `url.Values.Encode`: keys in sorted order, each pair rendered
`escape(k)=escape(v)`, joined with `&`. -/
def valuesEncode (v : List (String × String)) : String :=
  String.intercalate "&" ((sortByKey v).map (fun p => queryEscape p.1 ++ "=" ++ queryEscape p.2))

/-- The request URL `GetObservations` builds (observations.go lines
125–165): the base list path, with `?`-prefixed encoded parameters appended
only when the options pointer is non-nil and the encoded parameters are
non-empty. -/
def getObservationsUrl (base : String) (fmtF : ℚ → String) (opt : Option GetObservationsOpt) :
    String :=
  let u := buildUrl base "/observations.json"
  match opt with
  | none => u
  | some o =>
      let params := valuesEncode (getObservationsQueryValues fmtF o)
      if params = "" then u else u ++ "?" ++ params

/-! ## Helper lemmas -/

theorem jsonKeys_append (l1 l2 : List (String × Json)) :
    jsonKeys (l1 ++ l2) = jsonKeys l1 ++ jsonKeys l2 := by
  simp [jsonKeys]

theorem mem_jsonKeys_ite (c : Prop) [Decidable c] (k : String) (v : Json) (s : String) :
    s ∈ jsonKeys (if c then [] else [(k, v)]) ↔ ¬c ∧ s = k := by
  by_cases h : c <;> simp [jsonKeys, h]

theorem mem_jsonKeys_obsString (ob : Option GoTime) (s : String) :
    s ∈ jsonKeys
        (match ob with
         | none => []
         | some t => [("observed_on_string", Json.str (formatRFC3339 t))]) ↔
      ¬ob = none ∧ s = "observed_on_string" := by
  cases ob <;> simp [jsonKeys]

/-- Key-presence characterization of the serialized update body: a key
appears exactly when its field holds a Go-nonempty value. -/
theorem mem_keys_marshalUpdate (o : UpdateObservationOpt) (s : String) :
    s ∈ jsonKeys (marshalUpdateObservationOpt o) ↔
      (¬o.speciesGuess = "" ∧ s = "species_guess") ∨
      (¬o.observedOnString = none ∧ s = "observed_on_string") ∨
      (¬o.description = "" ∧ s = "description") ∨
      (¬o.latitude = 0 ∧ s = "latitude") ∨
      (¬o.longitude = 0 ∧ s = "longitude") ∨
      (¬o.positionalAccuracy = 0 ∧ s = "positional_accuracy") ∨
      (¬o.tags = "" ∧ s = "tag_list") ∨
      (¬o.geoPrivacy = "" ∧ s = "geoprivacy") := by
  simp only [marshalUpdateObservationOpt, jsonKeys_append, List.mem_append,
    mem_jsonKeys_ite, mem_jsonKeys_obsString, or_assoc]

theorem mem_valuesSet_self (v : List (String × String)) (k val : String) :
    (k, val) ∈ valuesSet v k val := by
  simp [valuesSet]

theorem mem_valuesSet_of_ne {k k' : String} (h : k ≠ k') {v : List (String × String)}
    {val : String} (val' : String) (hmem : (k, val) ∈ v) :
    (k, val) ∈ valuesSet v k' val' := by
  simp only [valuesSet, List.mem_append, List.mem_filter]
  exact Or.inl ⟨hmem, by simpa using h⟩

theorem mem_setIfSome_of_ne {α : Type} {k k' : String} {val : String}
    {v : List (String × String)} (field : Option α) (f : α → String) (h : k ≠ k')
    (hmem : (k, val) ∈ v) : (k, val) ∈ setIfSome v field k' f := by
  cases field with
  | none => exact hmem
  | some a => exact mem_valuesSet_of_ne h _ hmem

/-! ## Claim theorems -/

/-- C10: for every create-options value, the serialized create request body
contains exactly the eight keys `species_guess`, `observed_on_string`,
`description`, `latitude`, `longitude`, `positional_accuracy`, `tag_list`,
`geoprivacy`, in particular `observed_on_string` even at its zero value: the
misspelled `omit_empty` tag option has no effect on serialization. -/
theorem addObservationOpt_always_all_keys (o : AddObservationOpt) :
    jsonKeys (marshalAddObservationOpt o) =
      ["species_guess", "observed_on_string", "description", "latitude", "longitude",
       "positional_accuracy", "tag_list", "geoprivacy"] := rfl

/-- C9: the observation id is never serialized into the update request body
(its field is tagged `json:"-"`), so two update-options values differing
only in `Id` serialize to identical bodies; the id appears in the id-scoped
request path instead. -/
theorem updateObservation_id_only_in_path (o : UpdateObservationOpt) (i1 i2 : Int) :
    marshalUpdateObservationOpt { o with id := i1 } =
      marshalUpdateObservationOpt { o with id := i2 } ∧
    "id" ∉ jsonKeys (marshalUpdateObservationOpt o) ∧
    observationIdPath o.id = "/observations/" ++ toString o.id ++ ".json" := by
  refine ⟨rfl, ?_, rfl⟩
  simp [mem_keys_marshalUpdate]

/-- C2 counterexample: an update-options value whose `Tags` field is
explicitly set to the empty string and whose `Latitude` is explicitly set
to 0 serializes with neither a `tag_list` key nor a `latitude` key, refuting
the claim that a field set to its zero value produces a key. -/
theorem updateObservation_zero_value_omitted :
    jsonKeys (marshalUpdateObservationOpt ⟨7, "x", none, "", 0, 0, 0, "", ""⟩) =
      ["species_guess"] := by
  decide

/-- C2 (amended): in the serialized update body a field left unset produces
no key, but a non-pointer field explicitly set to its Go zero value (empty
string, zero number) is also omitted — `omitempty` conflates the two; a key
is present exactly when the field's value is nonzero (non-nil for the
pointer field `observed_on_string`). -/
theorem updateObservation_key_iff_nonzero (o : UpdateObservationOpt) (s : String) :
    s ∈ jsonKeys (marshalUpdateObservationOpt o) ↔
      (¬o.speciesGuess = "" ∧ s = "species_guess") ∨
      (¬o.observedOnString = none ∧ s = "observed_on_string") ∨
      (¬o.description = "" ∧ s = "description") ∨
      (¬o.latitude = 0 ∧ s = "latitude") ∨
      (¬o.longitude = 0 ∧ s = "longitude") ∨
      (¬o.positionalAccuracy = 0 ∧ s = "positional_accuracy") ∨
      (¬o.tags = "" ∧ s = "tag_list") ∨
      (¬o.geoPrivacy = "" ∧ s = "geoprivacy") :=
  mem_keys_marshalUpdate o s

/-- C1: evaluation of `AddObservation`'s response handling at the decisive
inputs.  A non-201 status (here 200) fails with `UnexpectedStatusError`
carrying the actual status, and a 201 status with a one-element array
returns the first element — as the claim states.  But a 201 status with an
empty JSON array does not fail with a `DecodeError`: the unguarded
`result[0]` in the source is a Go runtime panic (index out of range). -/
theorem addObservation_response_behavior :
    addObservation ⟨"gull", goTimeZero, "", 0, 0, 0, "", ""⟩ ⟨200, Json.arr [Json.obj []]⟩ =
      GoResult.err (ClientError.unexpectedStatus 200) ∧
    addObservation ⟨"gull", goTimeZero, "", 0, 0, 0, "", ""⟩ ⟨201, Json.arr [Json.obj []]⟩ =
      GoResult.ok (some simpleObservationZero) ∧
    addObservation ⟨"gull", goTimeZero, "", 0, 0, 0, "", ""⟩ ⟨201, Json.arr []⟩ =
      GoResult.panicked "runtime error: index out of range [0] with length 0" :=
  ⟨rfl, rfl, rfl⟩

/-- C6: for every delete response with a status other than 201 the
operation fails with an `UnexpectedStatusError` carrying that status; for
status 201 it returns no error and no value, and the outcome is independent
of the response body (no decode is performed). -/
theorem deleteObservation_status_behavior (id : Int) (resp : HttpResponse) :
    (resp.status ≠ 201 →
      deleteObservation id resp = Except.error (ClientError.unexpectedStatus resp.status)) ∧
    (resp.status = 201 → deleteObservation id resp = Except.ok ()) ∧
    (∀ b b' : Json,
      deleteObservation id { resp with body := b } =
        deleteObservation id { resp with body := b' }) := by
  refine ⟨fun h => ?_, fun h => ?_, fun b b' => rfl⟩
  · simp [deleteObservation, executeStatusCheck, h]
  · simp [deleteObservation, executeStatusCheck, h]

/-- Witness for C6: the delete behavior at the concrete statuses 200 and
201. -/
theorem deleteObservation_status_behavior_witness :
    deleteObservation 5 ⟨200, Json.null⟩ = Except.error (ClientError.unexpectedStatus 200) ∧
    deleteObservation 5 ⟨201, Json.null⟩ = Except.ok () :=
  ⟨(deleteObservation_status_behavior 5 ⟨200, Json.null⟩).1 (by decide),
   (deleteObservation_status_behavior 5 ⟨201, Json.null⟩).2.1 rfl⟩

/-- C8: options with only page=2 and perPage=50 produce exactly the two
parameters `page=2` and `per_page=50`; options with nothing set (and a nil
options pointer) produce the bare list URL with no query suffix. -/
theorem getObservations_query_exact (fmtF : ℚ → String) (base : String) :
    getObservationsQueryValues fmtF ⟨some 50, some 2, none, none, none, none, none, none⟩ =
      [("page", "2"), ("per_page", "50")] ∧
    valuesEncode
        (getObservationsQueryValues fmtF ⟨some 50, some 2, none, none, none, none, none, none⟩) =
      "page=2&per_page=50" ∧
    getObservationsUrl base fmtF (some ⟨none, none, none, none, none, none, none, none⟩) =
      base ++ "/observations.json" ∧
    getObservationsUrl base fmtF none = base ++ "/observations.json" := by
  have h1 : getObservationsQueryValues fmtF
      ⟨some 50, some 2, none, none, none, none, none, none⟩ =
      [("page", "2"), ("per_page", "50")] := rfl
  refine ⟨h1, ?_, rfl, rfl⟩
  rw [h1]
  decide

/-- C3: if the sort field is set and no explicit direction is set, the
query contains `order_by=<field>` and `order=desc`; if a direction is set
(true giving `asc`, false giving `desc`) the `order` parameter is present
regardless of the sort field; options with only `orderAscending=true` yield
exactly `order=asc` and in particular no `order_by` key. -/
theorem getObservations_order_spec (fmtF : ℚ → String) (opt : GetObservationsOpt) :
    (∀ f, opt.orderBy = some f → opt.orderAscending = none →
        ("order_by", f) ∈ getObservationsQueryValues fmtF opt ∧
        ("order", "desc") ∈ getObservationsQueryValues fmtF opt) ∧
    (∀ b, opt.orderAscending = some b →
        ("order", if b then "asc" else "desc") ∈ getObservationsQueryValues fmtF opt) ∧
    getObservationsQueryValues fmtF ⟨none, none, none, none, none, none, some true, none⟩ =
      [("order", "asc")] := by
  refine ⟨fun f hf ha => ?_, fun b hb => ?_, rfl⟩
  · simp only [getObservationsQueryValues, hf, ha]
    constructor
    · refine mem_setIfSome_of_ne _ _ (by decide) ?_
      refine mem_setIfSome_of_ne _ _ (by decide) ?_
      refine mem_setIfSome_of_ne _ _ (by decide) ?_
      exact mem_valuesSet_of_ne (by decide) _ (mem_valuesSet_self _ _ _)
    · refine mem_setIfSome_of_ne _ _ (by decide) ?_
      refine mem_setIfSome_of_ne _ _ (by decide) ?_
      refine mem_setIfSome_of_ne _ _ (by decide) ?_
      exact mem_valuesSet_self _ _ _
  · simp only [getObservationsQueryValues, hb]
    cases hob : opt.orderBy <;> simp only []
    · refine mem_setIfSome_of_ne _ _ (by decide) ?_
      refine mem_setIfSome_of_ne _ _ (by decide) ?_
      refine mem_setIfSome_of_ne _ _ (by decide) ?_
      exact mem_valuesSet_self _ _ _
    · refine mem_setIfSome_of_ne _ _ (by decide) ?_
      refine mem_setIfSome_of_ne _ _ (by decide) ?_
      refine mem_setIfSome_of_ne _ _ (by decide) ?_
      exact mem_valuesSet_self _ _ _

/-- Witness for C3: a concrete options value with `orderBy="observed_on"`
and no direction yields both pairs, and with an explicit ascending
direction yields the `order` pair. -/
theorem getObservations_order_spec_witness :
    (("order_by", "observed_on") ∈ getObservationsQueryValues (fun _ => "")
        ⟨none, none, none, none, none, some "observed_on", none, none⟩ ∧
      ("order", "desc") ∈ getObservationsQueryValues (fun _ => "")
        ⟨none, none, none, none, none, some "observed_on", none, none⟩) ∧
    ("order", if true then "asc" else "desc") ∈ getObservationsQueryValues (fun _ => "")
        ⟨none, none, none, none, none, none, some true, none⟩ :=
  ⟨(getObservations_order_spec (fun _ => "")
      ⟨none, none, none, none, none, some "observed_on", none, none⟩).1 "observed_on" rfl rfl,
   (getObservations_order_spec (fun _ => "")
      ⟨none, none, none, none, none, none, some true, none⟩).2.1 true rfl⟩

/-- C7: the has-geo filter contributes the fixed marker parameter
`has[]=geo` whenever it is set, with a query independent of the flag's
boolean value — there is no way to request "has no geo". -/
theorem getObservations_hasGeo_marker (fmtF : ℚ → String) (opt : GetObservationsOpt) :
    (∀ b1 b2 : Bool,
        getObservationsQueryValues fmtF { opt with hasGeo := some b1 } =
          getObservationsQueryValues fmtF { opt with hasGeo := some b2 }) ∧
    (∀ b, opt.hasGeo = some b →
        ("has[]", "geo") ∈ getObservationsQueryValues fmtF opt) := by
  refine ⟨fun b1 b2 => rfl, fun b hb => ?_⟩
  simp only [getObservationsQueryValues, hb]
  refine mem_setIfSome_of_ne _ _ (by decide) ?_
  exact mem_valuesSet_self _ _ _

/-- Witness for C7: the marker pair at the concrete flag value false. -/
theorem getObservations_hasGeo_marker_witness :
    ("has[]", "geo") ∈ getObservationsQueryValues (fun _ => "")
      ⟨none, none, none, none, none, none, none, some false⟩ :=
  (getObservations_hasGeo_marker (fun _ => "")
    ⟨none, none, none, none, none, none, none, some false⟩).2 false rfl

/-- C5: decoding a summary observation whose JSON carries latitude or
longitude as a numeric-valued string yields the corresponding numeric
value; when the string is not numeric the whole decode fails with a
`DecodeError`. -/
theorem simpleObservation_latlng_string_decode (s : String) :
    (∀ q : ℚ, parseJsonNumber s = some q →
        decodeSimpleObservation (Json.obj [("latitude", Json.str s)]) =
          Except.ok { simpleObservationZero with latitude := q } ∧
        decodeSimpleObservation (Json.obj [("longitude", Json.str s)]) =
          Except.ok { simpleObservationZero with longitude := q }) ∧
    (parseJsonNumber s = none →
        decodeSimpleObservation (Json.obj [("latitude", Json.str s)]) =
          Except.error
            (ClientError.decodeError "invalid number in string-encoded float field")) := by
  constructor
  · intro q hq
    constructor <;>
      simp [decodeSimpleObservation, applySimpleObservationField, decodeStringFloatField,
        hq, Except.map]
  · intro hn
    simp [decodeSimpleObservation, applySimpleObservationField, decodeStringFloatField,
      hn, Except.map]

/-- Witness for C5: `"latitude": "37.5"` decodes to latitude 37.5, and the
non-numeric string `"abc"` fails the whole decode with a `DecodeError`. -/
theorem simpleObservation_latlng_string_decode_witness :
    decodeSimpleObservation (Json.obj [("latitude", Json.str "37.5")]) =
      Except.ok { simpleObservationZero with latitude := (75 : ℚ) / 2 } ∧
    decodeSimpleObservation (Json.obj [("latitude", Json.str "abc")]) =
      Except.error (ClientError.decodeError "invalid number in string-encoded float field") :=
  ⟨((simpleObservation_latlng_string_decode "37.5").1 ((75 : ℚ) / 2)
      (by with_unfolding_all decide)).1,
   (simpleObservation_latlng_string_decode "abc").2 (by decide)⟩

end Gonaturalist
